import Mathlib

/-!
# Smooth scrolling for navigation links (`src/script.js`)

The script registers one `DOMContentLoaded` listener.  When it runs it selects
`nav a`, and gives every selected link a `click` listener.  The click listener
reads the link's `href`; for an `href` beginning with `#` it cancels the
default action, looks the `href` up as a selector and, when an element is
found, asks the window for a smooth scroll to `target.offsetTop - 70`.

The embedding is state passing.  The host page (document tree, registered
listeners, scroll requests received by the window) is a `World`; a listener
run returns an `Outcome`: the event and the world as the run left them, and
the exception that escaped the listener, if one did.

The selector grammar belongs to the host, so every operation that resolves a
selector takes the host's parser as the parameter `css`.  `parseSelector` is a
concrete parser for a small part of the grammar; it instantiates `css`
wherever a statement is evaluated on a concrete page.
-/

namespace SmoothScroll

/-! ## Host: document tree -/

/-- One element as the host holds it: its local name, its attributes in source
order, and two values of the current layout.

`offsetTop` is what reading the `offsetTop` property gives.  An HTML element
has the property and the host reports a whole number for it (`some n`), the
distance of the element's top border edge from the top padding edge of its
`offsetParent`.  Any other element, an `svg` element for one, has no such
property and the read gives `undefined` (`none`).

`documentTop` is the distance of the element's top border edge from the top of
the document.  The script never reads it.  The host ties it to `offsetTop` by
no fixed rule (a positioned ancestor, fixed positioning and margins all move
one against the other), so the two are independent data here. -/
structure ElementData where
  localName : String
  attributes : List (String × String)
  offsetTop : Option Int
  documentTop : Int
deriving DecidableEq, Repr

/-- A node of the document tree. -/
inductive Node where
  | text (data : String)
  | element (data : ElementData) (children : List Node)

/-- The document: its document element with everything below it. -/
abbrev Document := Node

/-- An element in its place in the document: `index` is its position in tree
order (it is the element's identity), `ancestors` are its ancestor elements,
the parent first. -/
structure Element where
  index : Nat
  data : ElementData
  ancestors : List ElementData
deriving DecidableEq, Repr

mutual
/-- Elements of a subtree in tree order (preorder, depth first), each with its
ancestors. -/
def Node.flat (ancs : List ElementData) : Node → List (ElementData × List ElementData)
  | .text _ => []
  | .element d cs => (d, ancs) :: Node.flatList (d :: ancs) cs
/-- Elements of a list of sibling subtrees in tree order. -/
def Node.flatList (ancs : List ElementData) : List Node → List (ElementData × List ElementData)
  | [] => []
  | c :: cs => Node.flat ancs c ++ Node.flatList ancs cs
end

/-- All elements of the document, in tree order. -/
def elements (doc : Document) : List Element :=
  (Node.flat [] doc).enum.map (fun p => ⟨p.1, p.2.1, p.2.2⟩)

/-- `Element.getAttribute(name)`: the value of the first attribute of that
name, `none` (JavaScript `null`) when there is none. -/
def getAttribute (d : ElementData) (name : String) : Option String :=
  (d.attributes.find? (fun a => a.1 == name)).map (fun a => a.2)

/-! ## Host: numbers -/

/-- A number as this script can compute it: a whole number or NaN.  The
`offsetTop` of an HTML element is a whole number of 32 bits and 70 is a whole
number, so their difference is exact in double precision. -/
inductive JSNumber where
  | nan
  | int (n : Int)
deriving DecidableEq, Repr

/-- The conversion to a number that `-` applies to the value of
`target.offsetTop`: `undefined` becomes NaN. -/
def toNumber : Option Int → JSNumber
  | none => .nan
  | some n => .int n

/-- The operator `-` on numbers: NaN when either side is NaN. -/
def JSNumber.sub : JSNumber → JSNumber → JSNumber
  | .int a, .int b => .int (a - b)
  | _, _ => .nan

/-- The operator `<` on numbers: false when either side is NaN. -/
def JSNumber.lt : JSNumber → JSNumber → Bool
  | .int a, .int b => decide (a < b)
  | _, _ => false

/-! ## Host: selectors -/

/-- Exceptions of the DOM. -/
inductive DOMException where
  | syntaxError
deriving DecidableEq, Repr

/-- Errors a listener of this script can raise. -/
inductive JSError where
  | typeError
  | domException (ex : DOMException)
deriving DecidableEq, Repr

/-- A parsed selector, by what it denotes: given the elements of the document
in tree order, which of them it matches. -/
abbrev Selector := List Element → Element → Bool

/-- The host's selector parser; `none` is a parse failure. -/
abbrev SelectorParser := String → Option Selector

/-- `querySelectorAll(selectors)` on the document: a `SyntaxError` when the
string does not parse, else the matching elements in tree order. -/
def querySelectorAll (css : SelectorParser) (doc : Document) (selectors : String) :
    Except DOMException (List Element) :=
  match css selectors with
  | none => .error .syntaxError
  | some sel => .ok ((elements doc).filter (sel (elements doc)))

/-- `querySelector(selectors)` on the document: a `SyntaxError` when the
string does not parse, else the first matching element in tree order, `none`
(JavaScript `null`) when nothing matches. -/
def querySelector (css : SelectorParser) (doc : Document) (selectors : String) :
    Except DOMException (Option Element) :=
  match querySelectorAll css doc selectors with
  | .error ex => .error ex
  | .ok matching => .ok matching.head?

/-- The meaning of the selector `nav a`: an `a` element with a `nav` element
among its ancestors. -/
def isNavAnchor (e : Element) : Bool :=
  e.data.localName == "a" && e.ancestors.any (fun a => a.localName == "nav")

/-! ### A concrete parser for type and ID selectors joined by descendant combinators -/

/-- A compound selector of the fragment: a type selector or an ID selector. -/
inductive Compound where
  | type (name : String)
  | id (name : String)
deriving DecidableEq, Repr

/-- Letters and the underscore: what an identifier of the fragment starts with. -/
def isNameStart (c : Char) : Bool :=
  c.isAlpha || c == '_'

/-- What an identifier of the fragment continues with. -/
def isNameChar (c : Char) : Bool :=
  isNameStart c || c.isDigit || c == '-'

/-- Whether the characters make up an identifier of the fragment. -/
def isIdent : List Char → Bool
  | [] => false
  | c :: cs => isNameStart c && cs.all isNameChar

/-- One compound selector: an identifier is a type selector, `#` followed by
an identifier is an ID selector, `#` followed by anything else is rejected. -/
def parseCompound : List Char → Option Compound
  | '#' :: cs => if isIdent cs then some (.id (String.mk cs)) else none
  | cs => if isIdent cs then some (.type (String.mk cs)) else none

/-- Splits at single spaces (the descendant combinator). -/
def splitSpaces : List Char → List (List Char)
  | [] => [[]]
  | c :: cs =>
    match splitSpaces cs with
    | [] => [[c]]
    | w :: ws => if c == ' ' then [] :: w :: ws else (c :: w) :: ws

/-- Whether one element satisfies a compound selector. -/
def Compound.matchesData (d : ElementData) : Compound → Bool
  | .type name => d.localName == name
  | .id name => getAttribute d "id" == some name

/-- Whether the ancestors (parent first) contain, going outwards, matches for
the compounds in the given order. -/
def matchesAncestors : List Compound → List ElementData → Bool
  | [], _ => true
  | _ :: _, [] => false
  | c :: cs, a :: ancs =>
    if c.matchesData a then matchesAncestors cs ancs else matchesAncestors (c :: cs) ancs

/-- Whether an element matches a chain of compounds joined by descendant
combinators; the chain is given rightmost compound first. -/
def matchesChain (chain : List Compound) (e : Element) : Bool :=
  match chain with
  | [] => false
  | c :: cs => c.matchesData e.data && matchesAncestors cs e.ancestors

/-- Parser for the fragment.  It rejects what the selector grammar rejects
within the fragment (a lone `#`, an empty compound) and also every selector
that lies outside the fragment. -/
def parseSelector : SelectorParser := fun s =>
  ((splitSpaces s.data).mapM parseCompound).map (fun cs _ e => matchesChain cs.reverse e)

/-! ## Host: events, listeners, window -/

/-- An event as a listener sees it: its type and its canceled flag.  The click
events a listener of this script receives are cancelable. -/
structure Event where
  type : String
  defaultPrevented : Bool
deriving DecidableEq, Repr

/-- `Event.preventDefault()`. -/
def preventDefault (e : Event) : Event :=
  { e with defaultPrevented := true }

/-- What a listener can be attached to. -/
inductive EventTarget where
  | document
  | element (index : Nat)
deriving DecidableEq, Repr

/-- The two function expressions of the script. -/
inductive Callback where
  | onDOMContentLoaded
  | onClick
deriving DecidableEq, Repr

/-- One registered event listener. -/
structure Listener where
  target : EventTarget
  type : String
  callback : Callback
deriving DecidableEq, Repr

/-- The `behavior` member of the scroll options. -/
inductive ScrollBehavior where
  | auto
  | instant
  | smooth
deriving DecidableEq, Repr

/-- The dictionary passed to `window.scrollTo`. -/
structure ScrollToOptions where
  top : JSNumber
  behavior : ScrollBehavior
deriving DecidableEq, Repr

/-- The page as the script can affect it. -/
structure World where
  document : Document
  listeners : List Listener
  scrollRequests : List ScrollToOptions

/-- Result of running a listener. -/
structure Outcome where
  event : Event
  world : World
  thrown : Option JSError

/-- `target.addEventListener(type, callback)`.  Every call in the script
passes a function object created for that call, so the listener is always
appended. -/
def addEventListener (target : EventTarget) (type : String) (callback : Callback)
    (w : World) : World :=
  { w with listeners := w.listeners ++ [⟨target, type, callback⟩] }

/-- `window.scrollTo(options)`: the window receives one scroll request. -/
def scrollTo (options : ScrollToOptions) (w : World) : World :=
  { w with scrollRequests := w.scrollRequests ++ [options] }

/-- `String.prototype.startsWith`. -/
def startsWith (s : String) (searchString : String) : Bool :=
  searchString.data.isPrefixOf s.data

/-! ## The script -/

/-- The click listener (`script.js` lines 5 to 16); `this` is the link the
listener is attached to. -/
def clickHandler (css : SelectorParser) (this : Element) (e : Event) (w : World) : Outcome :=
  match getAttribute this.data "href" with
  | none => ⟨e, w, some .typeError⟩
  | some href =>
    if startsWith href "#" then
      let e := preventDefault e
      match querySelector css w.document href with
      | .error ex => ⟨e, w, some (.domException ex)⟩
      | .ok none => ⟨e, w, none⟩
      | .ok (some target) =>
        let offset := (toNumber target.data.offsetTop).sub (.int 70)
        ⟨e, scrollTo ⟨offset, .smooth⟩ w, none⟩
    else ⟨e, w, none⟩

/-- The `DOMContentLoaded` listener (`script.js` lines 2 to 18).  The function
takes no parameter, so the event passes through untouched. -/
def onDOMContentLoaded (css : SelectorParser) (e : Event) (w : World) : Outcome :=
  match querySelectorAll css w.document "nav a" with
  | .error ex => ⟨e, w, some (.domException ex)⟩
  | .ok navLinks =>
    ⟨e, navLinks.foldl (fun w link => addEventListener (.element link.index) "click" .onClick w) w,
      none⟩

/-- The script's top level: it registers the `DOMContentLoaded` listener on
the document. -/
def main (w : World) : World :=
  addEventListener .document "DOMContentLoaded" .onDOMContentLoaded w

/-! ## Pages used to evaluate the statements -/

/-- The `html` element of the pages below. -/
def htmlData : ElementData := ⟨"html", [], some 0, 0⟩

/-- The `body` element of the pages below. -/
def bodyData : ElementData := ⟨"body", [], some 0, 0⟩

/-- The `nav` element of the pages below. -/
def navData : ElementData := ⟨"nav", [], some 0, 0⟩

/-- The navigation link of the pages below, with the given attributes. -/
def anchorData (attrs : List (String × String)) : ElementData := ⟨"a", attrs, some 20, 20⟩

/-- A page `<html><body><nav><a ...>link</a></nav> content </body></html>`. -/
def page (attrs : List (String × String)) (content : List Node) : Document :=
  .element htmlData
    [.element bodyData (.element navData [.element (anchorData attrs) [.text "link"]] :: content)]

/-- The navigation link of `page attrs content`, in its place. -/
def navLink (attrs : List (String × String)) : Element :=
  ⟨3, anchorData attrs, [navData, bodyData, htmlData]⟩

/-- A `section` element with the given id, `offsetTop` and distance from the
top of the document. -/
def sectionData (id : String) (offsetTop : Int) (documentTop : Int) : ElementData :=
  ⟨"section", [("id", id)], some offsetTop, documentTop⟩

/-- An `svg` element with the given id and distance from the top of the
document; it has no `offsetTop`. -/
def svgData (id : String) (documentTop : Int) : ElementData :=
  ⟨"svg", [("id", id)], none, documentTop⟩

/-- A fresh click event. -/
def clickEvent : Event := ⟨"click", false⟩

/-- The page `<nav><a href="#about">` with `<section id="about">` whose
`offsetTop` is 500, as is its distance from the top of the document. -/
def aboutPage : Document :=
  page [("href", "#about")] [.element (sectionData "about" 500 500) []]

/-- The `section` of `aboutPage`, in its place. -/
def aboutSection : Element := ⟨4, sectionData "about" 500 500, [bodyData, htmlData]⟩

/-- A `div` with `position: relative`, 400 below the top of the document. -/
def wrapperData : ElementData := ⟨"div", [("style", "position: relative")], some 400, 400⟩

/-- The page `<nav><a href="#about">` where `<section id="about">` lies 100
below the top of a positioned `div` that itself lies 400 below the top of the
document: the section is 500 below the top of the document and its
`offsetTop` is 100. -/
def wrappedPage : Document :=
  page [("href", "#about")]
    [.element wrapperData [.element (sectionData "about" 100 500) []]]

/-- The `section` of `wrappedPage`, in its place. -/
def wrappedSection : Element :=
  ⟨5, sectionData "about" 100 500, [wrapperData, bodyData, htmlData]⟩

/-- The page `<nav><a href="#logo">` with `<svg id="logo">` 500 below the top
of the document. -/
def logoPage : Document := page [("href", "#logo")] [.element (svgData "logo" 500) []]

/-- The `svg` of `logoPage`, in its place. -/
def logoSvg : Element := ⟨4, svgData "logo" 500, [bodyData, htmlData]⟩

/-- A `div` with `position: absolute; top: -100px`: its top lies 100 above the
top of the document. -/
def raisedData : ElementData :=
  ⟨"div", [("style", "position: absolute; top: -100px")], some (-100), -100⟩

/-- The page `<nav><a href="#news">` where `<section id="news">` lies 150
below the top of the raised `div`: the section is 50 below the top of the
document and its `offsetTop` is 150. -/
def raisedPage : Document :=
  page [("href", "#news")] [.element raisedData [.element (sectionData "news" 150 50) []]]

/-- The `section` of `raisedPage`, in its place. -/
def raisedSection : Element :=
  ⟨5, sectionData "news" 150 50, [raisedData, bodyData, htmlData]⟩

/-- The page `<nav><a href="#chart">` with `<svg id="chart">` 50 below the top
of the document. -/
def chartPage : Document := page [("href", "#chart")] [.element (svgData "chart" 50) []]

/-- The `svg` of `chartPage`, in its place. -/
def chartSvg : Element := ⟨4, svgData "chart" 50, [bodyData, htmlData]⟩

/-- The page `<nav><a href="https://example.com">`. -/
def externalPage : Document := page [("href", "https://example.com")] []

/-- The page `<nav><a href="#missing">` with no element of id `missing`. -/
def missingPage : Document :=
  page [("href", "#missing")] [.element (sectionData "about" 500 500) []]

/-- The page `<nav><a href="#">`. -/
def hashPage : Document := page [("href", "#")] [.element (sectionData "about" 500 500) []]

/-- The page `<nav><a href="#dup">` with two sections of id `dup`, with
`offsetTop` 300 and 900. -/
def duplicatePage : Document :=
  page [("href", "#dup")]
    [.element (sectionData "dup" 300 300) [], .element (sectionData "dup" 900 900) []]

/-- The first `section` of `duplicatePage`, in its place. -/
def firstDuplicate : Element := ⟨4, sectionData "dup" 300 300, [bodyData, htmlData]⟩

/-- The second `section` of `duplicatePage`, in its place. -/
def secondDuplicate : Element := ⟨5, sectionData "dup" 900 900, [bodyData, htmlData]⟩

/-- The page `<nav><a href="#intro">` with `<section id="intro">` whose
`offsetTop` is 20. -/
def introPage : Document := page [("href", "#intro")] [.element (sectionData "intro" 20 20) []]

/-- The `section` of `introPage`, in its place. -/
def introSection : Element := ⟨4, sectionData "intro" 20 20, [bodyData, htmlData]⟩

/-- The page `<nav><a>` whose link has no `href`, followed by an anchor
outside the navigation region. -/
def bareLinkPage : Document :=
  page [] [.element ⟨"a", [("href", "#about")], some 40, 40⟩ []]

/-! ## Facts about the host model -/

/-- The indices of the elements of a document count up from 0. -/
theorem elements_map_index (doc : Document) :
    (elements doc).map (fun x => x.index) = List.range (Node.flat [] doc).length := by
  unfold elements
  rw [List.map_map]
  exact List.enum_map_fst _

/-- Two elements of a document with the same index are the same element. -/
theorem elements_index_injective (doc : Document) (x y : Element)
    (hx : x ∈ elements doc) (hy : y ∈ elements doc) (h : x.index = y.index) : x = y := by
  have hnd : ((elements doc).map (fun x => x.index)).Nodup := by
    rw [elements_map_index]; exact List.nodup_range _
  exact List.inj_on_of_nodup_map hnd hx hy h

/-- No element occurs twice among the elements of a document. -/
theorem elements_nodup (doc : Document) : (elements doc).Nodup := by
  have hnd : ((elements doc).map (fun x => x.index)).Nodup := by
    rw [elements_map_index]; exact List.nodup_range _
  exact List.Nodup.of_map _ hnd

/-- The elements of a document are listed by increasing index. -/
theorem elements_tree_order (doc : Document) :
    (elements doc).Pairwise (fun a b => a.index < b.index) := by
  have h : ((elements doc).map (fun x => x.index)).Pairwise (fun a b => a < b) := by
    rw [elements_map_index]; exact List.pairwise_lt_range _
  exact (List.pairwise_map).1 h

/-- The loop of the `DOMContentLoaded` listener appends one click listener per
link, in the order of the links, and touches nothing else. -/
theorem foldl_addEventListener (links : List Element) (w : World) :
    links.foldl (fun w link => addEventListener (.element link.index) "click" .onClick w) w =
      { w with listeners := w.listeners ++
          links.map (fun link => (⟨.element link.index, "click", .onClick⟩ : Listener)) } := by
  induction links generalizing w with
  | nil => simp
  | cons l ls ih =>
    rw [List.foldl_cons, ih]
    simp [addEventListener]

/-- The run of the click listener on a link whose `href` starts with `#` and
resolves to an element. -/
theorem clickHandler_resolved (css : SelectorParser) (this t : Element) (href : String)
    (e : Event) (w : World)
    (hhref : getAttribute this.data "href" = some href)
    (hhash : startsWith href "#" = true)
    (htarget : querySelector css w.document href = .ok (some t)) :
    clickHandler css this e w =
      ⟨preventDefault e,
        scrollTo ⟨(toNumber t.data.offsetTop).sub (.int 70), .smooth⟩ w, none⟩ := by
  simp [clickHandler, hhref, hhash, htarget]

/-- The one-compound chain `nav` matches the ancestors exactly when one of them
is a `nav` element. -/
theorem matchesAncestors_nav (ancs : List ElementData) :
    matchesAncestors [.type "nav"] ancs = ancs.any (fun a => a.localName == "nav") := by
  induction ancs with
  | nil => rfl
  | cons a ancs ih =>
    by_cases h : (a.localName == "nav") = true
    · simp [matchesAncestors, Compound.matchesData, h]
    · simp only [Bool.not_eq_true] at h
      simp [matchesAncestors, Compound.matchesData, h, ih]

/-- The chain that `parseSelector` builds for `nav a` has the meaning of
`nav a`. -/
theorem matchesChain_nav_a (x : Element) :
    matchesChain [.type "a", .type "nav"] x = isNavAnchor x := by
  simp [matchesChain, isNavAnchor, Compound.matchesData, matchesAncestors_nav]

/-! ## The claims -/

/-- C1, as amended.  For a link whose `href` starts with `#` and resolves to an
element, one run of the click listener cancels the default action, raises
nothing, and issues exactly one scroll request, with behavior `smooth` and,
for a target that has an `offsetTop`, with `top` equal to that `offsetTop`
minus 70. -/
theorem click_resolved_scrolls_to_offsetTop (css : SelectorParser) (this t : Element)
    (href : String) (e : Event) (w : World)
    (hhref : getAttribute this.data "href" = some href)
    (hhash : startsWith href "#" = true)
    (htarget : querySelector css w.document href = .ok (some t)) :
    (clickHandler css this e w).event.defaultPrevented = true ∧
    (clickHandler css this e w).thrown = none ∧
    ∃ top : JSNumber,
      (clickHandler css this e w).world.scrollRequests =
        w.scrollRequests ++ [⟨top, .smooth⟩] ∧
      ∀ n : Int, t.data.offsetTop = some n → top = .int (n - 70) := by
  rw [clickHandler_resolved css this t href e w hhref hhash htarget]
  refine ⟨rfl, rfl, (toNumber t.data.offsetTop).sub (.int 70), rfl, ?_⟩
  intro n hn
  rw [hn]
  rfl

/-- C1 as amended, on the page of the spec: the section has `offsetTop` 500
and the click asks for a smooth scroll to 430. -/
theorem click_resolved_scrolls_to_offsetTop_witness :
    getAttribute (navLink [("href", "#about")]).data "href" = some "#about" ∧
    startsWith "#about" "#" = true ∧
    querySelector parseSelector aboutPage "#about" = .ok (some aboutSection) ∧
    aboutSection.data.offsetTop = some 500 ∧
    (clickHandler parseSelector (navLink [("href", "#about")]) clickEvent
        ⟨aboutPage, [], []⟩).event.defaultPrevented = true ∧
    (clickHandler parseSelector (navLink [("href", "#about")]) clickEvent
        ⟨aboutPage, [], []⟩).world.scrollRequests = [⟨.int 430, .smooth⟩] :=
  have h := click_resolved_scrolls_to_offsetTop parseSelector (navLink [("href", "#about")])
    aboutSection "#about" clickEvent ⟨aboutPage, [], []⟩ (by decide) (by decide) rfl
  ⟨by decide, by decide, rfl, rfl, h.1,
    match h.2.2 with
    | ⟨_, hrequests, htop⟩ => by rw [hrequests, htop 500 rfl]; rfl⟩

/-- C1 as stated fails.  On `wrappedPage` the link resolves to a section that
is 500 below the top of the document, inside a positioned container; the
click asks for a scroll to 30, not to 500 minus 70.  On `logoPage` the link
resolves to an `svg` element 500 below the top of the document; it has no
`offsetTop` and the click asks for a scroll to NaN. -/
theorem click_resolved_not_document_top :
    (getAttribute (navLink [("href", "#about")]).data "href" = some "#about" ∧
      startsWith "#about" "#" = true ∧
      querySelector parseSelector wrappedPage "#about" = .ok (some wrappedSection) ∧
      wrappedSection.data.documentTop = 500 ∧
      (clickHandler parseSelector (navLink [("href", "#about")]) clickEvent
          ⟨wrappedPage, [], []⟩).world.scrollRequests = [⟨.int 30, .smooth⟩] ∧
      (clickHandler parseSelector (navLink [("href", "#about")]) clickEvent
          ⟨wrappedPage, [], []⟩).world.scrollRequests ≠
        [⟨.int (wrappedSection.data.documentTop - 70), .smooth⟩]) ∧
    (getAttribute (navLink [("href", "#logo")]).data "href" = some "#logo" ∧
      startsWith "#logo" "#" = true ∧
      querySelector parseSelector logoPage "#logo" = .ok (some logoSvg) ∧
      logoSvg.data.documentTop = 500 ∧
      (clickHandler parseSelector (navLink [("href", "#logo")]) clickEvent
          ⟨logoPage, [], []⟩).world.scrollRequests = [⟨.nan, .smooth⟩] ∧
      (clickHandler parseSelector (navLink [("href", "#logo")]) clickEvent
          ⟨logoPage, [], []⟩).world.scrollRequests ≠
        [⟨.int (logoSvg.data.documentTop - 70), .smooth⟩]) :=
  ⟨⟨by decide, by decide, rfl, by decide, by decide, by decide⟩,
    ⟨by decide, by decide, rfl, by decide, by decide, by decide⟩⟩

/-- C2.  For a link whose `href` does not start with `#`, one run of the
click listener leaves the event as it was (the default action is not
canceled), issues no scroll request and raises nothing. -/
theorem click_external_does_nothing (css : SelectorParser) (this : Element) (href : String)
    (e : Event) (w : World)
    (hhref : getAttribute this.data "href" = some href)
    (hhash : startsWith href "#" = false) :
    (clickHandler css this e w).event = e ∧
    (clickHandler css this e w).world.scrollRequests = w.scrollRequests ∧
    (clickHandler css this e w).thrown = none := by
  simp [clickHandler, hhref, hhash]

/-- C2 on the page of the spec: a click on the link to `https://example.com`
leaves the canceled flag false and the window without a scroll request. -/
theorem click_external_does_nothing_witness :
    getAttribute (navLink [("href", "https://example.com")]).data "href" =
      some "https://example.com" ∧
    startsWith "https://example.com" "#" = false ∧
    (clickHandler parseSelector (navLink [("href", "https://example.com")]) clickEvent
        ⟨externalPage, [], []⟩).event.defaultPrevented = false ∧
    (clickHandler parseSelector (navLink [("href", "https://example.com")]) clickEvent
        ⟨externalPage, [], []⟩).world.scrollRequests = [] :=
  have h := click_external_does_nothing parseSelector (navLink [("href", "https://example.com")])
    "https://example.com" clickEvent ⟨externalPage, [], []⟩ (by decide) (by decide)
  ⟨by decide, by decide, congrArg Event.defaultPrevented h.1, h.2.1⟩

/-- C3.  For a link whose `href` starts with `#` and whose selector parses but
matches no element, one run of the click listener cancels the default action,
raises nothing and issues no scroll request. -/
theorem click_absent_target_is_silent (css : SelectorParser) (this : Element) (href : String)
    (e : Event) (w : World)
    (hhref : getAttribute this.data "href" = some href)
    (hhash : startsWith href "#" = true)
    (habsent : querySelector css w.document href = .ok none) :
    (clickHandler css this e w).event.defaultPrevented = true ∧
    (clickHandler css this e w).thrown = none ∧
    (clickHandler css this e w).world.scrollRequests = w.scrollRequests := by
  simp [clickHandler, hhref, hhash, habsent, preventDefault]

/-- C3 on the page of the spec: `#missing` with no element of id `missing`. -/
theorem click_absent_target_is_silent_witness :
    getAttribute (navLink [("href", "#missing")]).data "href" = some "#missing" ∧
    startsWith "#missing" "#" = true ∧
    querySelector parseSelector missingPage "#missing" = .ok none ∧
    (clickHandler parseSelector (navLink [("href", "#missing")]) clickEvent
        ⟨missingPage, [], []⟩).event.defaultPrevented = true ∧
    (clickHandler parseSelector (navLink [("href", "#missing")]) clickEvent
        ⟨missingPage, [], []⟩).thrown = none ∧
    (clickHandler parseSelector (navLink [("href", "#missing")]) clickEvent
        ⟨missingPage, [], []⟩).world.scrollRequests = [] :=
  ⟨by decide, by decide, rfl,
    click_absent_target_is_silent parseSelector (navLink [("href", "#missing")]) "#missing"
      clickEvent ⟨missingPage, [], []⟩ (by decide) (by decide) rfl⟩

/-- C4, as amended.  For a link whose `href` starts with `#` and does not
parse as a selector, one run of the click listener cancels the default action
and issues no scroll request, as for an absent target, but `querySelector`
raises a `SyntaxError` that escapes the listener. -/
theorem click_malformed_selector_throws (css : SelectorParser) (this : Element) (href : String)
    (e : Event) (w : World)
    (hhref : getAttribute this.data "href" = some href)
    (hhash : startsWith href "#" = true)
    (hmalformed : css href = none) :
    (clickHandler css this e w).event.defaultPrevented = true ∧
    (clickHandler css this e w).thrown = some (.domException .syntaxError) ∧
    (clickHandler css this e w).world.scrollRequests = w.scrollRequests := by
  simp [clickHandler, hhref, hhash, querySelector, querySelectorAll, hmalformed, preventDefault]

/-- C4 as amended, on a link whose `href` is `#` alone. -/
theorem click_malformed_selector_throws_witness :
    getAttribute (navLink [("href", "#")]).data "href" = some "#" ∧
    startsWith "#" "#" = true ∧
    (parseSelector "#").isNone = true ∧
    (clickHandler parseSelector (navLink [("href", "#")]) clickEvent
        ⟨hashPage, [], []⟩).event.defaultPrevented = true ∧
    (clickHandler parseSelector (navLink [("href", "#")]) clickEvent
        ⟨hashPage, [], []⟩).thrown = some (.domException .syntaxError) ∧
    (clickHandler parseSelector (navLink [("href", "#")]) clickEvent
        ⟨hashPage, [], []⟩).world.scrollRequests = [] :=
  ⟨by decide, by decide, by decide,
    click_malformed_selector_throws parseSelector (navLink [("href", "#")]) "#" clickEvent
      ⟨hashPage, [], []⟩ (by decide) (by decide) rfl⟩

/-- C4 as stated fails.  For the link whose `href` is `#` alone the selector
does not parse, and the click does not end like a click on a link with an
absent target: an error escapes the listener. -/
theorem click_hash_alone_surfaces_error :
    getAttribute (navLink [("href", "#")]).data "href" = some "#" ∧
    startsWith "#" "#" = true ∧
    (parseSelector "#").isNone = true ∧
    (clickHandler parseSelector (navLink [("href", "#")]) clickEvent
        ⟨hashPage, [], []⟩).thrown ≠ none ∧
    (clickHandler parseSelector (navLink [("href", "#")]) clickEvent
        ⟨hashPage, [], []⟩).thrown ≠
      (clickHandler parseSelector (navLink [("href", "#missing")]) clickEvent
        ⟨missingPage, [], []⟩).thrown := by
  decide

/-- C5.  For a link whose `href` starts with `#` and resolves to an element,
two clicks in a row issue two scroll requests with the same `top`; and a
click issues that same request in every world with the same document,
whatever its listeners and earlier scroll requests: the listener keeps no
state. -/
theorem click_twice_same_offset (css : SelectorParser) (this t : Element) (href : String)
    (e₁ e₂ : Event) (w : World)
    (hhref : getAttribute this.data "href" = some href)
    (hhash : startsWith href "#" = true)
    (htarget : querySelector css w.document href = .ok (some t)) :
    (clickHandler css this e₁ w).world.scrollRequests =
      w.scrollRequests ++ [⟨(toNumber t.data.offsetTop).sub (.int 70), .smooth⟩] ∧
    (clickHandler css this e₂ (clickHandler css this e₁ w).world).world.scrollRequests =
      w.scrollRequests ++
        [⟨(toNumber t.data.offsetTop).sub (.int 70), .smooth⟩,
          ⟨(toNumber t.data.offsetTop).sub (.int 70), .smooth⟩] ∧
    (∀ (w' : World) (e' : Event), w'.document = w.document →
      (clickHandler css this e' w').world.scrollRequests =
        w'.scrollRequests ++ [⟨(toNumber t.data.offsetTop).sub (.int 70), .smooth⟩]) := by
  have hstateless : ∀ (w' : World) (e' : Event), w'.document = w.document →
      (clickHandler css this e' w').world.scrollRequests =
        w'.scrollRequests ++ [⟨(toNumber t.data.offsetTop).sub (.int 70), .smooth⟩] := by
    intro w' e' hdoc
    rw [clickHandler_resolved css this t href e' w' hhref hhash (by rw [hdoc]; exact htarget)]
    rfl
  have hfirst := hstateless w e₁ rfl
  refine ⟨hfirst, ?_, hstateless⟩
  have hdoc : (clickHandler css this e₁ w).world.document = w.document := by
    rw [clickHandler_resolved css this t href e₁ w hhref hhash htarget]
    rfl
  rw [hstateless _ e₂ hdoc, hfirst]
  simp

/-- C5 on the page of the spec: two clicks on "About" ask twice for 430. -/
theorem click_twice_same_offset_witness :
    getAttribute (navLink [("href", "#about")]).data "href" = some "#about" ∧
    startsWith "#about" "#" = true ∧
    querySelector parseSelector aboutPage "#about" = .ok (some aboutSection) ∧
    (clickHandler parseSelector (navLink [("href", "#about")]) clickEvent
        (clickHandler parseSelector (navLink [("href", "#about")]) clickEvent
          ⟨aboutPage, [], []⟩).world).world.scrollRequests =
      [⟨.int 430, .smooth⟩, ⟨.int 430, .smooth⟩] :=
  ⟨by decide, by decide, rfl,
    (click_twice_same_offset parseSelector (navLink [("href", "#about")]) aboutSection "#about"
      clickEvent clickEvent ⟨aboutPage, [], []⟩ (by decide) (by decide) rfl).2.1⟩

/-- C7.  Whatever the link and the page, one run of the click listener leaves
the document tree and the registered listeners as they were and leaves the
event's type as it was; it adds at most one scroll request and removes none. -/
theorem click_preserves_document (css : SelectorParser) (this : Element) (e : Event)
    (w : World) :
    (clickHandler css this e w).world.document = w.document ∧
    (clickHandler css this e w).world.listeners = w.listeners ∧
    (clickHandler css this e w).event.type = e.type ∧
    ∃ requests : List ScrollToOptions,
      (clickHandler css this e w).world.scrollRequests = w.scrollRequests ++ requests ∧
      requests.length ≤ 1 := by
  unfold clickHandler
  split
  · exact ⟨rfl, rfl, rfl, [], by simp, by simp⟩
  · split
    · split
      · exact ⟨rfl, rfl, rfl, [], by simp, by simp⟩
      · exact ⟨rfl, rfl, rfl, [], by simp, by simp⟩
      · exact ⟨rfl, rfl, rfl, [_], rfl, by simp⟩
    · exact ⟨rfl, rfl, rfl, [], by simp, by simp⟩

/-- C9.  For a link without an `href` attribute, one run of the click listener
raises a `TypeError` and leaves the event and the page untouched: the default
action is not canceled and no scroll request is issued.  For a link that has
an `href` attribute the listener raises no `TypeError`. -/
theorem click_without_href_throws (css : SelectorParser) (this : Element) (e : Event)
    (w : World) :
    (getAttribute this.data "href" = none →
      (clickHandler css this e w).thrown = some .typeError ∧
      (clickHandler css this e w).event = e ∧
      (clickHandler css this e w).world.scrollRequests = w.scrollRequests) ∧
    (∀ href : String, getAttribute this.data "href" = some href →
      (clickHandler css this e w).thrown ≠ some .typeError) := by
  constructor
  · intro hnull
    simp [clickHandler, hnull]
  · intro href hhref
    unfold clickHandler
    rw [hhref]
    dsimp only
    split
    · split <;> simp
    · simp

/-- C9 on a link without attributes, and on the link to `#about`. -/
theorem click_without_href_throws_witness :
    getAttribute (navLink []).data "href" = none ∧
    (clickHandler parseSelector (navLink []) clickEvent ⟨bareLinkPage, [], []⟩).thrown =
      some .typeError ∧
    (clickHandler parseSelector (navLink []) clickEvent
      ⟨bareLinkPage, [], []⟩).event.defaultPrevented = false ∧
    (clickHandler parseSelector (navLink []) clickEvent
      ⟨bareLinkPage, [], []⟩).world.scrollRequests = [] ∧
    (clickHandler parseSelector (navLink [("href", "#about")]) clickEvent
      ⟨aboutPage, [], []⟩).thrown ≠ some .typeError :=
  have h := click_without_href_throws parseSelector (navLink []) clickEvent ⟨bareLinkPage, [], []⟩
  have h' := click_without_href_throws parseSelector (navLink [("href", "#about")]) clickEvent
    ⟨aboutPage, [], []⟩
  ⟨by decide, (h.1 (by decide)).1, congrArg Event.defaultPrevented (h.1 (by decide)).2.1,
    (h.1 (by decide)).2.2, h'.2 "#about" (by decide)⟩

/-- C10, as amended.  For a link whose `href` starts with `#` and resolves to
an element that has an `offsetTop`, the `top` of the one scroll request issued
is that `offsetTop` minus 70, unclamped: it is strictly less than the
`offsetTop`, and whenever the `offsetTop` is less than 70 it is negative, not
0. -/
theorem click_offset_not_clamped (css : SelectorParser) (this t : Element) (href : String)
    (n : Int) (e : Event) (w : World)
    (hhref : getAttribute this.data "href" = some href)
    (hhash : startsWith href "#" = true)
    (htarget : querySelector css w.document href = .ok (some t))
    (hoffset : t.data.offsetTop = some n) :
    ∃ request : ScrollToOptions,
      (clickHandler css this e w).world.scrollRequests = w.scrollRequests ++ [request] ∧
      request.top = .int (n - 70) ∧
      request.top.lt (.int n) = true ∧
      (n < 70 → request.top.lt (.int 0) = true ∧ request.top ≠ .int 0) := by
  refine ⟨⟨.int (n - 70), .smooth⟩, ?_, rfl, ?_, ?_⟩
  · rw [clickHandler_resolved css this t href e w hhref hhash htarget, hoffset]
    rfl
  · show decide (n - 70 < n) = true
    exact decide_eq_true (by omega)
  · intro hsmall
    constructor
    · show decide (n - 70 < 0) = true
      exact decide_eq_true (by omega)
    · intro hzero
      have hz : n - 70 = 0 := JSNumber.int.inj hzero
      omega

/-- C10 as amended, on a page whose target has `offsetTop` 20: the click asks
for a scroll to -50. -/
theorem click_offset_not_clamped_witness :
    getAttribute (navLink [("href", "#intro")]).data "href" = some "#intro" ∧
    startsWith "#intro" "#" = true ∧
    querySelector parseSelector introPage "#intro" = .ok (some introSection) ∧
    introSection.data.offsetTop = some 20 ∧
    (clickHandler parseSelector (navLink [("href", "#intro")]) clickEvent
        ⟨introPage, [], []⟩).world.scrollRequests = [⟨.int (-50), .smooth⟩] ∧
    ∃ request : ScrollToOptions,
      (clickHandler parseSelector (navLink [("href", "#intro")]) clickEvent
        ⟨introPage, [], []⟩).world.scrollRequests = [] ++ [request] ∧
      request.top = .int (20 - 70) ∧
      request.top.lt (.int 20) = true ∧
      ((20 : Int) < 70 → request.top.lt (.int 0) = true ∧ request.top ≠ .int 0) :=
  ⟨by decide, by decide, rfl, rfl, by decide,
    click_offset_not_clamped parseSelector (navLink [("href", "#intro")]) introSection "#intro"
      20 clickEvent ⟨introPage, [], []⟩ (by decide) (by decide) rfl rfl⟩

/-- C10 as stated fails.  On `raisedPage` the target is 50 below the top of the
document, less than 70, and the click asks for a scroll to 80: not the
negative number 50 minus 70, and not less than 50.  On `chartPage` the target
is an `svg` element 50 below the top of the document and the click asks for a
scroll to NaN, which is neither negative nor less than 50. -/
theorem click_offset_not_below_document_top :
    (getAttribute (navLink [("href", "#news")]).data "href" = some "#news" ∧
      startsWith "#news" "#" = true ∧
      querySelector parseSelector raisedPage "#news" = .ok (some raisedSection) ∧
      raisedSection.data.documentTop = 50 ∧
      (clickHandler parseSelector (navLink [("href", "#news")]) clickEvent
          ⟨raisedPage, [], []⟩).world.scrollRequests = [⟨.int 80, .smooth⟩] ∧
      (JSNumber.int 80).lt (.int 0) = false ∧
      JSNumber.int 80 ≠ .int (raisedSection.data.documentTop - 70) ∧
      (JSNumber.int 80).lt (.int raisedSection.data.documentTop) = false) ∧
    (getAttribute (navLink [("href", "#chart")]).data "href" = some "#chart" ∧
      startsWith "#chart" "#" = true ∧
      querySelector parseSelector chartPage "#chart" = .ok (some chartSvg) ∧
      chartSvg.data.documentTop = 50 ∧
      (clickHandler parseSelector (navLink [("href", "#chart")]) clickEvent
          ⟨chartPage, [], []⟩).world.scrollRequests = [⟨.nan, .smooth⟩] ∧
      JSNumber.nan.lt (.int 0) = false ∧
      JSNumber.nan ≠ .int (chartSvg.data.documentTop - 70) ∧
      JSNumber.nan.lt (.int chartSvg.data.documentTop) = false) :=
  ⟨⟨by decide, by decide, rfl, by decide, by decide, by decide, by decide, by decide⟩,
    ⟨by decide, by decide, rfl, by decide, by decide, by decide, by decide, by decide⟩⟩

/-- C6.  When the host's parser gives `nav a` its meaning, the
`DOMContentLoaded` listener raises nothing and only appends listeners: every
listener it adds is a click listener on an `a` element under a `nav`
element, every such element of the document receives exactly one of them and
every other element none; the event, the document and the scroll requests
stay as they were. -/
theorem init_attaches_one_listener_per_nav_anchor (css : SelectorParser) (sel : Selector)
    (e : Event) (w : World)
    (hparse : css "nav a" = some sel)
    (hsel : ∀ (els : List Element) (x : Element), sel els x = isNavAnchor x) :
    (onDOMContentLoaded css e w).thrown = none ∧
    (onDOMContentLoaded css e w).event = e ∧
    (onDOMContentLoaded css e w).world.document = w.document ∧
    (onDOMContentLoaded css e w).world.scrollRequests = w.scrollRequests ∧
    ∃ added : List Listener,
      (onDOMContentLoaded css e w).world.listeners = w.listeners ++ added ∧
      (∀ l ∈ added, l.type = "click" ∧ l.callback = .onClick ∧
        ∃ x ∈ elements w.document, isNavAnchor x = true ∧ l.target = .element x.index) ∧
      (∀ x ∈ elements w.document,
        added.countP (fun l => l.target = .element x.index) =
          if isNavAnchor x then 1 else 0) := by
  have hrun : onDOMContentLoaded css e w = ⟨e,
    { w with listeners := w.listeners ++
        (List.filter isNavAnchor (elements w.document)).map (fun link =>
          (⟨.element link.index, "click", .onClick⟩ : Listener)) },
    none⟩ := by
    have hfilter : (elements w.document).filter (sel (elements w.document)) =
        (elements w.document).filter isNavAnchor :=
      List.filter_congr (fun x _ => hsel _ x)
    simp only [onDOMContentLoaded, querySelectorAll, hparse, foldl_addEventListener, hfilter]
  rw [hrun]
  refine ⟨rfl, rfl, rfl, rfl, _, rfl, ?_, ?_⟩
  · intro l hl
    obtain ⟨x, hx, rfl⟩ := List.mem_map.1 hl
    obtain ⟨hxmem, hxnav⟩ := List.mem_filter.1 hx
    exact ⟨rfl, rfl, x, hxmem, hxnav, rfl⟩
  · intro x hx
    rw [List.countP_map, List.countP_filter]
    by_cases hnav : isNavAnchor x = true
    · rw [if_pos hnav]
      have hcongr : (elements w.document).countP
          (fun y => ((fun l : Listener => decide (l.target = .element x.index)) ∘
            (fun link : Element => (⟨.element link.index, "click", .onClick⟩ : Listener))) y &&
              isNavAnchor y) = (elements w.document).countP (fun y => y == x) := by
        apply List.countP_congr
        intro y hy
        simp only [Function.comp, Bool.and_eq_true, decide_eq_true_eq, beq_iff_eq,
          EventTarget.element.injEq]
        constructor
        · intro h
          exact elements_index_injective w.document y x hy hx h.1
        · intro h
          subst h
          exact ⟨rfl, hnav⟩
      rw [hcongr]
      exact List.count_eq_one_of_mem (elements_nodup w.document) hx
    · rw [if_neg hnav]
      rw [List.countP_eq_zero]
      intro y hy
      simp only [Function.comp, Bool.and_eq_true, decide_eq_true_eq,
        EventTarget.element.injEq, not_and]
      intro h
      have hyx := elements_index_injective w.document y x hy hx h
      subst hyx
      exact hnav

/-- C6 on a page with one link under `nav`, without `href`, and one anchor
outside `nav`: the link under `nav` (element 3) receives one click listener,
the anchor outside (element 4) none. -/
theorem init_attaches_one_listener_per_nav_anchor_witness :
    (parseSelector "nav a").isSome = true ∧
    (elements bareLinkPage).map isNavAnchor = [false, false, false, true, false] ∧
    (onDOMContentLoaded parseSelector ⟨"DOMContentLoaded", false⟩
      ⟨bareLinkPage, [], []⟩).world.listeners = [⟨.element 3, "click", .onClick⟩] ∧
    (onDOMContentLoaded parseSelector ⟨"DOMContentLoaded", false⟩
      ⟨bareLinkPage, [], []⟩).thrown = none ∧
    (onDOMContentLoaded parseSelector ⟨"DOMContentLoaded", false⟩
      ⟨bareLinkPage, [], []⟩).world.scrollRequests = [] :=
  have h := init_attaches_one_listener_per_nav_anchor parseSelector
    (fun _ x => matchesChain [.type "a", .type "nav"] x) ⟨"DOMContentLoaded", false⟩
    ⟨bareLinkPage, [], []⟩ rfl (fun _ x => matchesChain_nav_a x)
  ⟨by decide, by decide, by decide, h.1, h.2.2.2.1⟩

/-- C8.  For a link whose `href` starts with `#` and whose selector matches
more than one element, one run of the click listener issues exactly one
scroll request, computed from the `offsetTop` of the first match; every other
match comes later in tree order. -/
theorem click_scrolls_to_first_match (css : SelectorParser) (sel : Selector)
    (this first : Element) (rest : List Element) (href : String) (e : Event) (w : World)
    (hhref : getAttribute this.data "href" = some href)
    (hhash : startsWith href "#" = true)
    (hparse : css href = some sel)
    (hmatch : (elements w.document).filter (sel (elements w.document)) = first :: rest)
    (hmore : rest ≠ []) :
    (clickHandler css this e w).world.scrollRequests =
      w.scrollRequests ++ [⟨(toNumber first.data.offsetTop).sub (.int 70), .smooth⟩] ∧
    (∀ m ∈ rest, first.index < m.index) ∧
    (∃ m ∈ rest, first.index < m.index) := by
  have htarget : querySelector css w.document href = .ok (some first) := by
    simp [querySelector, querySelectorAll, hparse, hmatch]
  have hordered : (first :: rest).Pairwise (fun a b => a.index < b.index) := by
    rw [← hmatch]
    exact (elements_tree_order w.document).filter _
  have hlater : ∀ m ∈ rest, first.index < m.index := (List.pairwise_cons.1 hordered).1
  refine ⟨?_, hlater, ?_⟩
  · rw [clickHandler_resolved css this first href e w hhref hhash htarget]
    rfl
  · cases rest with
    | nil => exact absurd rfl hmore
    | cons m ms => exact ⟨m, List.mem_cons_self _ _, hlater m (List.mem_cons_self _ _)⟩

/-- C8 on a page with two sections of id `dup`, with `offsetTop` 300 and 900:
the click asks for a scroll to 230. -/
theorem click_scrolls_to_first_match_witness :
    getAttribute (navLink [("href", "#dup")]).data "href" = some "#dup" ∧
    startsWith "#dup" "#" = true ∧
    (querySelectorAll parseSelector duplicatePage "#dup") =
      .ok [firstDuplicate, secondDuplicate] ∧
    (clickHandler parseSelector (navLink [("href", "#dup")]) clickEvent
        ⟨duplicatePage, [], []⟩).world.scrollRequests = [⟨.int 230, .smooth⟩] :=
  ⟨by decide, by decide, rfl,
    (click_scrolls_to_first_match parseSelector (fun _ x => matchesChain [.id "dup"] x)
      (navLink [("href", "#dup")]) firstDuplicate [secondDuplicate] "#dup" clickEvent
      ⟨duplicatePage, [], []⟩ (by decide) (by decide) rfl (by decide) (by decide)).1⟩

end SmoothScroll
